import Mathlib

/-!
Verification of the batch member-migration workflows of the verification
bot (`src/bot.py`).

The embedding models the two migration commands, `transfer_users` and
`restore_members`, from the point where the candidate list is fetched from
the HTTP API: everything the workflow observes from the outside world (the
HTTP status and body of the candidate fetch, whether each candidate is
found in the target guild via `guild.fetch_member`, whether the member
already holds the requested role, whether `add_roles` raises, whether the
mark-restored POST returns 200) is an explicit input.  User-visible
side effects (followup messages, embed edits, per-candidate Discord and
API calls) are recorded in an event trace.  The `logs` command
(`show_logs`) and the `stats` command (`show_stats`) are embedded the same
way.
-/

/-- A verified-member record as returned by the API
(`discord_id`, `username`, `restored` fields of the JSON objects). -/
structure MemberRecord where
  discord_id : String
  username : String
  restored : Bool
deriving DecidableEq

/-- Outcome of `guild.fetch_member` for one candidate, as decided by the
outside world: the member is found (and either already holds the requested
role or not), Discord raises `NotFound`, or the per-candidate resolution
raises some other exception (e.g. an HTTP error from `fetch_member`; an
exception raised before the call, such as `int()` on a malformed id,
behaves identically on every counter). -/
inductive FetchMemberOutcome where
  | found (hasRole : Bool)
  | notFound
  | raises
deriving DecidableEq

/-- What the outside world does for one candidate: the `fetch_member`
outcome, whether `add_roles` raises when attempted, and whether the
best-effort mark-restored POST returns 200 (`markOk = false` also covers
the POST itself raising; both are swallowed, the non-200 case after a log
line). -/
structure CandEnv where
  fetchMember : FetchMemberOutcome
  addRolesRaises : Bool
  markOk : Bool
deriving DecidableEq

/-- User-visible effects and per-candidate external calls of one command
invocation, in order of occurrence. -/
inductive Event where
  | message (text : String)
  | initialEdit (total : Nat)
  | fetchMemberCall (uid : String)
  | addRolesCall (uid : String)
  | kickCall (uid : String)
  | markRestoredCall (uid : String)
  | progressEdit (done : Nat) (total : Nat)
  | finalEditTransfer (transferred : Nat) (already_member : Nat) (failed : Nat) (total : Nat)
  | finalEditRestore (restored : Nat) (failed : Nat) (total : Nat)
deriving DecidableEq

/-- Result of one migration command invocation, as the user sees it. -/
inductive JobOutcome where
  | fetchError
  | nothingToDo
  | completedTransfer (transferred : Nat) (already_member : Nat) (failed : Nat) (total : Nat)
  | completedRestore (restored : Nat) (failed : Nat) (total : Nat)
deriving DecidableEq

/-- `if limit > 0 and limit < len(users): users = users[:limit]` —
identical in `transfer_users` (bot.py:371-372) and `restore_members`
(bot.py:538-539). -/
def applyLimit {α : Type} (limit : Nat) (xs : List α) : List α :=
  if 0 < limit ∧ limit < xs.length then xs.take limit else xs

/-- Mutable state of one `transfer_users` run: the three counters
(bot.py:393-395) plus the trace of emitted events. -/
structure TState where
  transferred : Nat
  already_member : Nat
  failed : Nat
  events : List Event
deriving DecidableEq

/-- Tail of the found-candidate path in `transfer_users` (bot.py:435-453):
best-effort kick from the source guild when `delete_from_source` (failures
swallowed), then a progress edit when `transferred % 10 == 0`. -/
def transferTail (deleteFromSource : Bool) (total : Nat) (s : TState) (u : MemberRecord) :
    TState :=
  let s2 := if deleteFromSource
    then { s with events := s.events ++ [Event.kickCall u.discord_id] }
    else s
  if s2.transferred % 10 = 0
    then { s2 with events := s2.events ++ [Event.progressEdit s2.transferred total] }
    else s2

/-- One iteration of the `transfer_users` loop body (bot.py:398-457).
Found: `already_member += 1`, then `add_roles` when a role was requested
(a raise there falls to the outer handler: `failed += 1`), then
`transferred += 1` and the tail.  `NotFound`: `failed += 1`, `continue`.
Any other exception: caught by the outer handler, `failed += 1`. -/
def transferStep (assignRole deleteFromSource : Bool) (total : Nat)
    (s : TState) (u : MemberRecord) (e : CandEnv) : TState :=
  match e.fetchMember with
  | FetchMemberOutcome.notFound =>
      { s with failed := s.failed + 1,
               events := s.events ++ [Event.fetchMemberCall u.discord_id] }
  | FetchMemberOutcome.raises =>
      { s with failed := s.failed + 1,
               events := s.events ++ [Event.fetchMemberCall u.discord_id] }
  | FetchMemberOutcome.found _ =>
      let s1 : TState :=
        { s with already_member := s.already_member + 1,
                 events := s.events ++ [Event.fetchMemberCall u.discord_id] }
      if assignRole then
        if e.addRolesRaises then
          { s1 with failed := s1.failed + 1,
                    events := s1.events ++ [Event.addRolesCall u.discord_id] }
        else
          transferTail deleteFromSource total
            { s1 with transferred := s1.transferred + 1,
                      events := s1.events ++ [Event.addRolesCall u.discord_id] } u
      else
        transferTail deleteFromSource total
          { s1 with transferred := s1.transferred + 1 } u

/-- The `for user_data in users:` loop of `transfer_users`, each candidate
paired with what the outside world does for it. -/
def transferLoop (assignRole deleteFromSource : Bool) (total : Nat) :
    List (MemberRecord × CandEnv) → TState → TState
  | [], s => s
  | p :: rest, s =>
      transferLoop assignRole deleteFromSource total rest
        (transferStep assignRole deleteFromSource total s p.1 p.2)

/-- The candidate-fetch outcome for `transfer_users`
(`GET /api/dashboard/server/{id}/members`, bot.py:343-368): an HTTP
response with a status and the `members` payload, or a raised exception. -/
inductive TFetch where
  | resp (status : Nat) (members : List (MemberRecord × CandEnv))
  | exn
deriving DecidableEq

/-- Initial `transfer_users` state: zero counters, the initial progress
embed already edited in (bot.py:375-391). -/
def initT (total : Nat) : TState :=
  { transferred := 0, already_member := 0, failed := 0,
    events := [Event.initialEdit total] }

/-- `transfer_users` (bot.py:304-489) from the candidate fetch on: non-200
or raising fetch aborts with one message; an empty `members` payload is
reported and nothing is processed; otherwise the list is truncated by
`limit`, iterated, and a final summary embed is emitted unconditionally. -/
def transfer_users (fetch : TFetch) (limit : Nat) (assignRole deleteFromSource : Bool) :
    JobOutcome × List Event :=
  match fetch with
  | TFetch.exn =>
      (JobOutcome.fetchError, [Event.message "❌ Failed to connect to verification API."])
  | TFetch.resp status members =>
      if status ≠ 200 then
        (JobOutcome.fetchError,
         [Event.message ("❌ Failed to get users from source server (API error: "
            ++ toString status ++ ")")])
      else if members.isEmpty then
        (JobOutcome.nothingToDo,
         [Event.message "❌ No verified users found in the source server."])
      else
        let users := applyLimit limit members
        let s := transferLoop assignRole deleteFromSource users.length users
          (initT users.length)
        (JobOutcome.completedTransfer s.transferred s.already_member s.failed users.length,
         s.events ++
           [Event.finalEditTransfer s.transferred s.already_member s.failed users.length])

/-- Mutable state of one `restore_members` run: the two counters
(bot.py:556-557), the event trace, and the `logger.error` lines written
for failed mark-restored POSTs (bot.py:590). -/
structure RState where
  restored_count : Nat
  failed_count : Nat
  events : List Event
  logs : List String
deriving DecidableEq

/-- Tail of the found-candidate path in `restore_members` (bot.py:579-604):
best-effort mark-restored POST (a non-200 answer is logged, a raise is
swallowed; neither affects anything else), then a progress edit when
`restored_count % 10 == 0`. -/
def restoreTail (total : Nat) (e : CandEnv) (s : RState) (u : MemberRecord) : RState :=
  let s1 :=
    { s with events := s.events ++ [Event.markRestoredCall u.discord_id],
             logs := if e.markOk then s.logs
               else s.logs ++ ["Failed to mark user as restored in API"] }
  if s1.restored_count % 10 = 0
    then { s1 with events := s1.events ++ [Event.progressEdit s1.restored_count total] }
    else s1

/-- One iteration of the `restore_members` loop body (bot.py:559-608).
Found: `add_roles` only when a role was requested and
`role not in member.roles` (a raise there falls to the outer handler:
`failed_count += 1`), then `restored_count += 1` and the tail.
`NotFound`: `failed_count += 1`, `continue`.  Any other exception:
caught by the outer handler, `failed_count += 1`. -/
def restoreStep (roleRequested : Bool) (total : Nat)
    (s : RState) (u : MemberRecord) (e : CandEnv) : RState :=
  match e.fetchMember with
  | FetchMemberOutcome.notFound =>
      { s with failed_count := s.failed_count + 1,
               events := s.events ++ [Event.fetchMemberCall u.discord_id] }
  | FetchMemberOutcome.raises =>
      { s with failed_count := s.failed_count + 1,
               events := s.events ++ [Event.fetchMemberCall u.discord_id] }
  | FetchMemberOutcome.found hasRole =>
      let s1 : RState :=
        { s with events := s.events ++ [Event.fetchMemberCall u.discord_id] }
      if roleRequested ∧ hasRole = false then
        if e.addRolesRaises then
          { s1 with failed_count := s1.failed_count + 1,
                    events := s1.events ++ [Event.addRolesCall u.discord_id] }
        else
          restoreTail total e
            { s1 with restored_count := s1.restored_count + 1,
                      events := s1.events ++ [Event.addRolesCall u.discord_id] } u
      else
        restoreTail total e { s1 with restored_count := s1.restored_count + 1 } u

/-- The `for user in users:` loop of `restore_members`. -/
def restoreLoop (roleRequested : Bool) (total : Nat) :
    List (MemberRecord × CandEnv) → RState → RState
  | [], s => s
  | p :: rest, s =>
      restoreLoop roleRequested total rest (restoreStep roleRequested total s p.1 p.2)

/-- The candidate-fetch outcome for `restore_members`
(`GET /api/bot/guild/{id}/verified`, bot.py:509-518). -/
inductive RFetch where
  | resp (status : Nat) (users : List (MemberRecord × CandEnv))
  | exn
deriving DecidableEq

/-- Initial `restore_members` state: zero counters, the initial progress
embed already edited in (bot.py:542-554). -/
def initR (total : Nat) : RState :=
  { restored_count := 0, failed_count := 0,
    events := [Event.initialEdit total], logs := [] }

/-- `restore_members` (bot.py:498-636) from the candidate fetch on.  A
non-200 fetch aborts with one message; a raising fetch is caught by the
command-level handler, again with one message (the code appends `str(e)`,
elided here).  An empty `users` payload, or a list left empty after
filtering out `restored` members, is reported and nothing is processed;
otherwise the filtered list is truncated by `limit`, iterated, and a final
summary embed is emitted unconditionally. -/
def restore_members (fetch : RFetch) (limit : Nat) (roleRequested : Bool) :
    JobOutcome × List Event :=
  match fetch with
  | RFetch.exn =>
      (JobOutcome.fetchError, [Event.message "❌ An error occurred during restoration."])
  | RFetch.resp status users0 =>
      if status ≠ 200 then
        (JobOutcome.fetchError,
         [Event.message "❌ Failed to get verified users from API."])
      else if users0.isEmpty then
        (JobOutcome.nothingToDo,
         [Event.message "❌ No verified users found for this server."])
      else
        let filtered := users0.filter (fun p => !p.1.restored)
        if filtered.isEmpty then
          (JobOutcome.nothingToDo, [Event.message "✅ All users are already restored!"])
        else
          let users := applyLimit limit filtered
          let s := restoreLoop roleRequested users.length users (initR users.length)
          (JobOutcome.completedRestore s.restored_count s.failed_count users.length,
           s.events ++
             [Event.finalEditRestore s.restored_count s.failed_count users.length])

example :
    (transfer_users (TFetch.resp 200
      [(⟨"1", "u", false⟩, ⟨FetchMemberOutcome.found false, false, true⟩)]) 0 false false).1
    = JobOutcome.completedTransfer 1 1 0 1 := by decide

example :
    (restore_members (RFetch.resp 200
      [(⟨"1", "u", false⟩, ⟨FetchMemberOutcome.found false, false, true⟩)]) 0 false).1
    = JobOutcome.completedRestore 1 0 1 := by decide

/-- Number of events in a trace satisfying a predicate. -/
def countP (p : Event → Bool) (es : List Event) : Nat := (es.filter p).length

/-- Number of occurrences of one exact event in a trace. -/
def countE (x : Event) (es : List Event) : Nat := es.count x

/-- Progress-edit events (the every-10-users embed edits). -/
def isProgress (ev : Event) : Bool :=
  match ev with
  | Event.progressEdit _ _ => true
  | _ => false

/-- Final-summary events (the unconditional post-loop embed edits). -/
def isFinal (ev : Event) : Bool :=
  match ev with
  | Event.finalEditTransfer _ _ _ _ => true
  | Event.finalEditRestore _ _ _ => true
  | _ => false

/-- The ordered `guild.fetch_member` targets recorded in a trace: one entry
per candidate the loop body reached. -/
def fetchCalls (es : List Event) : List String :=
  es.filterMap (fun ev => match ev with
    | Event.fetchMemberCall uid => some uid
    | _ => none)

theorem countP_append (p : Event → Bool) (es fs : List Event) :
    countP p (es ++ fs) = countP p es + countP p fs := by
  simp [countP, List.filter_append]

theorem countE_append (x : Event) (es fs : List Event) :
    countE x (es ++ fs) = countE x es + countE x fs := by
  simp [countE, List.count_append]

theorem fetchCalls_append (es fs : List Event) :
    fetchCalls (es ++ fs) = fetchCalls es ++ fetchCalls fs := by
  simp [fetchCalls, List.filterMap_append]

theorem transferTail_transferred (d : Bool) (tt : Nat) (s : TState) (u : MemberRecord) :
    (transferTail d tt s u).transferred = s.transferred := by
  simp only [transferTail]
  split <;> split <;> rfl

theorem transferTail_already (d : Bool) (tt : Nat) (s : TState) (u : MemberRecord) :
    (transferTail d tt s u).already_member = s.already_member := by
  simp only [transferTail]
  split <;> split <;> rfl

theorem transferTail_failed (d : Bool) (tt : Nat) (s : TState) (u : MemberRecord) :
    (transferTail d tt s u).failed = s.failed := by
  simp only [transferTail]
  split <;> split <;> rfl

theorem transferStep_sum (a d : Bool) (tt : Nat) (s : TState) (u : MemberRecord)
    (e : CandEnv) :
    (transferStep a d tt s u e).transferred + (transferStep a d tt s u e).failed
      = s.transferred + s.failed + 1 := by
  rcases e with ⟨fm, ar, mk⟩
  cases fm <;>
    simp only [transferStep] <;>
    try rfl
  split
  · split
    · rfl
    · rw [transferTail_transferred, transferTail_failed]
      simp
      omega
  · rw [transferTail_transferred, transferTail_failed]
    simp
    omega

theorem transferTail_fetchCalls (d : Bool) (tt : Nat) (s : TState) (u : MemberRecord) :
    fetchCalls (transferTail d tt s u).events = fetchCalls s.events := by
  simp only [transferTail]
  split <;> split <;> simp_all [fetchCalls, List.filterMap_append]

theorem transferTail_progress (d : Bool) (tt : Nat) (s : TState) (u : MemberRecord) :
    countP isProgress (transferTail d tt s u).events
      = countP isProgress s.events + (if s.transferred % 10 = 0 then 1 else 0) := by
  simp only [transferTail]
  split <;> split <;> simp_all [countP, isProgress, List.filter_append]

theorem transferTail_final (d : Bool) (tt : Nat) (s : TState) (u : MemberRecord) :
    countP isFinal (transferTail d tt s u).events = countP isFinal s.events := by
  simp only [transferTail]
  split <;> split <;> simp_all [countP, isFinal, List.filter_append]

theorem transferTail_mark (d : Bool) (tt : Nat) (s : TState) (u : MemberRecord) (x : String) :
    countE (Event.markRestoredCall x) (transferTail d tt s u).events
      = countE (Event.markRestoredCall x) s.events := by
  simp only [transferTail]
  split <;> split <;> simp_all [countE, List.count_append]

theorem transferTail_addRoles (d : Bool) (tt : Nat) (s : TState) (u : MemberRecord)
    (x : String) :
    countE (Event.addRolesCall x) (transferTail d tt s u).events
      = countE (Event.addRolesCall x) s.events := by
  simp only [transferTail]
  split <;> split <;> simp_all [countE, List.count_append]

theorem transferStep_mono (a d : Bool) (tt : Nat) (s : TState) (u : MemberRecord)
    (e : CandEnv) :
    s.transferred ≤ (transferStep a d tt s u e).transferred
    ∧ s.already_member ≤ (transferStep a d tt s u e).already_member
    ∧ s.failed ≤ (transferStep a d tt s u e).failed := by
  rcases e with ⟨fm, ar, mk⟩
  cases fm <;> simp only [transferStep] <;> try exact ⟨Nat.le_refl _, Nat.le_refl _, Nat.le_succ _⟩
  split
  · split
    · exact ⟨Nat.le_refl _, Nat.le_succ _, Nat.le_succ _⟩
    · rw [transferTail_transferred, transferTail_already, transferTail_failed]
      simp
  · rw [transferTail_transferred, transferTail_already, transferTail_failed]
    simp

theorem transferStep_transferred_cases (a d : Bool) (tt : Nat) (s : TState)
    (u : MemberRecord) (e : CandEnv) :
    (transferStep a d tt s u e).transferred = s.transferred
    ∨ (transferStep a d tt s u e).transferred = s.transferred + 1 := by
  rcases e with ⟨fm, ar, mk⟩
  cases fm <;> simp only [transferStep] <;> try exact Or.inl (by trivial)
  split
  · split
    · exact Or.inl rfl
    · rw [transferTail_transferred]
      exact Or.inr rfl
  · rw [transferTail_transferred]
    exact Or.inr rfl

theorem transferStep_already_le (a d : Bool) (tt : Nat) (s : TState) (u : MemberRecord)
    (e : CandEnv) :
    (transferStep a d tt s u e).already_member ≤ s.already_member + 1 := by
  rcases e with ⟨fm, ar, mk⟩
  cases fm <;> simp only [transferStep] <;> try exact Nat.le_succ _
  split
  · split
    · exact Nat.le_refl _
    · rw [transferTail_already]
  · rw [transferTail_already]

theorem transferStep_fetchCalls (a d : Bool) (tt : Nat) (s : TState) (u : MemberRecord)
    (e : CandEnv) :
    fetchCalls (transferStep a d tt s u e).events
      = fetchCalls s.events ++ [u.discord_id] := by
  rcases e with ⟨fm, ar, mk⟩
  cases fm with
  | notFound => simp [transferStep, fetchCalls, List.filterMap_append]
  | raises => simp [transferStep, fetchCalls, List.filterMap_append]
  | found h =>
      simp only [transferStep]
      split
      · split
        · simp [fetchCalls, List.filterMap_append]
        · rw [transferTail_fetchCalls]
          simp [fetchCalls, List.filterMap_append]
      · rw [transferTail_fetchCalls]
        simp [fetchCalls, List.filterMap_append]

theorem transferStep_progress (a d : Bool) (tt : Nat) (s : TState) (u : MemberRecord)
    (e : CandEnv) :
    countP isProgress (transferStep a d tt s u e).events
      = countP isProgress s.events
        + (if (transferStep a d tt s u e).transferred = s.transferred + 1
             ∧ (transferStep a d tt s u e).transferred % 10 = 0 then 1 else 0) := by
  rcases e with ⟨fm, ar, mk⟩
  cases fm with
  | notFound => simp [transferStep, countP, isProgress, List.filter_append]
  | raises => simp [transferStep, countP, isProgress, List.filter_append]
  | found h =>
      simp only [transferStep]
      split
      · split
        · simp [countP, isProgress, List.filter_append]
        · rw [transferTail_progress, transferTail_transferred]
          simp [countP, isProgress, List.filter_append]
      · rw [transferTail_progress, transferTail_transferred]
        simp [countP, isProgress, List.filter_append]

theorem transferStep_final (a d : Bool) (tt : Nat) (s : TState) (u : MemberRecord)
    (e : CandEnv) :
    countP isFinal (transferStep a d tt s u e).events = countP isFinal s.events := by
  rcases e with ⟨fm, ar, mk⟩
  cases fm with
  | notFound => simp [transferStep, countP, isFinal, List.filter_append]
  | raises => simp [transferStep, countP, isFinal, List.filter_append]
  | found h =>
      simp only [transferStep]
      split
      · split
        · simp [countP, isFinal, List.filter_append]
        · rw [transferTail_final]
          simp [countP, isFinal, List.filter_append]
      · rw [transferTail_final]
        simp [countP, isFinal, List.filter_append]

theorem transferStep_mark (a d : Bool) (tt : Nat) (s : TState) (u : MemberRecord)
    (e : CandEnv) (x : String) :
    countE (Event.markRestoredCall x) (transferStep a d tt s u e).events
      = countE (Event.markRestoredCall x) s.events := by
  rcases e with ⟨fm, ar, mk⟩
  cases fm with
  | notFound => simp [transferStep, countE, List.count_append]
  | raises => simp [transferStep, countE, List.count_append]
  | found h =>
      simp only [transferStep]
      split
      · split
        · simp [countE, List.count_append]
        · rw [transferTail_mark]
          simp [countE, List.count_append]
      · rw [transferTail_mark]
        simp [countE, List.count_append]

theorem div_ten_succ (T : Nat) :
    (T + 1) / 10 = T / 10 + (if (T + 1) % 10 = 0 then 1 else 0) := by
  rw [Nat.succ_div]
  congr 1
  simp [Nat.dvd_iff_mod_eq_zero]

theorem transferLoop_sum (a d : Bool) (tt : Nat) (cs : List (MemberRecord × CandEnv)) :
    ∀ s : TState,
    (transferLoop a d tt cs s).transferred + (transferLoop a d tt cs s).failed
      = s.transferred + s.failed + cs.length := by
  induction cs with
  | nil => intro s; rfl
  | cons p rest ih =>
      intro s
      simp only [transferLoop, List.length_cons]
      rw [ih]
      have h := transferStep_sum a d tt s p.1 p.2
      omega

theorem transferLoop_mono (a d : Bool) (tt : Nat) (cs : List (MemberRecord × CandEnv)) :
    ∀ s : TState,
    s.transferred ≤ (transferLoop a d tt cs s).transferred
    ∧ s.already_member ≤ (transferLoop a d tt cs s).already_member
    ∧ s.failed ≤ (transferLoop a d tt cs s).failed := by
  induction cs with
  | nil => intro s; exact ⟨Nat.le_refl _, Nat.le_refl _, Nat.le_refl _⟩
  | cons p rest ih =>
      intro s
      have h1 := transferStep_mono a d tt s p.1 p.2
      have h2 := ih (transferStep a d tt s p.1 p.2)
      simp only [transferLoop]
      exact ⟨Nat.le_trans h1.1 h2.1, Nat.le_trans h1.2.1 h2.2.1, Nat.le_trans h1.2.2 h2.2.2⟩

theorem transferLoop_already_le (a d : Bool) (tt : Nat)
    (cs : List (MemberRecord × CandEnv)) :
    ∀ s : TState,
    (transferLoop a d tt cs s).already_member ≤ s.already_member + cs.length := by
  induction cs with
  | nil => intro s; simp [transferLoop]
  | cons p rest ih =>
      intro s
      simp only [transferLoop, List.length_cons]
      have h1 := transferStep_already_le a d tt s p.1 p.2
      have h2 := ih (transferStep a d tt s p.1 p.2)
      omega

theorem transferLoop_fetchCalls (a d : Bool) (tt : Nat)
    (cs : List (MemberRecord × CandEnv)) :
    ∀ s : TState,
    fetchCalls (transferLoop a d tt cs s).events
      = fetchCalls s.events ++ cs.map (fun p => p.1.discord_id) := by
  induction cs with
  | nil => intro s; simp [transferLoop]
  | cons p rest ih =>
      intro s
      simp only [transferLoop, List.map_cons]
      rw [ih, transferStep_fetchCalls]
      simp

theorem transferLoop_progress (a d : Bool) (tt : Nat)
    (cs : List (MemberRecord × CandEnv)) :
    ∀ s : TState, countP isProgress s.events = s.transferred / 10 →
    countP isProgress (transferLoop a d tt cs s).events
      = (transferLoop a d tt cs s).transferred / 10 := by
  induction cs with
  | nil => intro s h; exact h
  | cons p rest ih =>
      intro s h
      simp only [transferLoop]
      apply ih
      rw [transferStep_progress]
      rcases transferStep_transferred_cases a d tt s p.1 p.2 with hc | hc
      · rw [hc, h]
        have : ¬ (s.transferred = s.transferred + 1) := by omega
        simp [hc, this]
      · rw [hc, h, div_ten_succ]
        simp [hc]

theorem transferLoop_final (a d : Bool) (tt : Nat) (cs : List (MemberRecord × CandEnv)) :
    ∀ s : TState,
    countP isFinal (transferLoop a d tt cs s).events = countP isFinal s.events := by
  induction cs with
  | nil => intro s; rfl
  | cons p rest ih =>
      intro s
      simp only [transferLoop]
      rw [ih, transferStep_final]

theorem transferLoop_mark (a d : Bool) (tt : Nat) (cs : List (MemberRecord × CandEnv))
    (x : String) :
    ∀ s : TState,
    countE (Event.markRestoredCall x) (transferLoop a d tt cs s).events
      = countE (Event.markRestoredCall x) s.events := by
  induction cs with
  | nil => intro s; rfl
  | cons p rest ih =>
      intro s
      simp only [transferLoop]
      rw [ih, transferStep_mark]

theorem restoreTail_restored (tt : Nat) (e : CandEnv) (s : RState) (u : MemberRecord) :
    (restoreTail tt e s u).restored_count = s.restored_count := by
  simp only [restoreTail]
  split <;> rfl

theorem restoreTail_failed (tt : Nat) (e : CandEnv) (s : RState) (u : MemberRecord) :
    (restoreTail tt e s u).failed_count = s.failed_count := by
  simp only [restoreTail]
  split <;> rfl

theorem restoreTail_fetchCalls (tt : Nat) (e : CandEnv) (s : RState) (u : MemberRecord) :
    fetchCalls (restoreTail tt e s u).events = fetchCalls s.events := by
  simp only [restoreTail]
  split <;> simp_all [fetchCalls, List.filterMap_append]

theorem restoreTail_progress (tt : Nat) (e : CandEnv) (s : RState) (u : MemberRecord) :
    countP isProgress (restoreTail tt e s u).events
      = countP isProgress s.events + (if s.restored_count % 10 = 0 then 1 else 0) := by
  simp only [restoreTail]
  split <;> simp_all [countP, isProgress, List.filter_append]

theorem restoreTail_final (tt : Nat) (e : CandEnv) (s : RState) (u : MemberRecord) :
    countP isFinal (restoreTail tt e s u).events = countP isFinal s.events := by
  simp only [restoreTail]
  split <;> simp_all [countP, isFinal, List.filter_append]

theorem restoreTail_mark_self (tt : Nat) (e : CandEnv) (s : RState) (u : MemberRecord) :
    countE (Event.markRestoredCall u.discord_id) (restoreTail tt e s u).events
      = countE (Event.markRestoredCall u.discord_id) s.events + 1 := by
  simp only [restoreTail]
  split <;> simp_all [countE, List.count_append]

theorem restoreTail_addRoles (tt : Nat) (e : CandEnv) (s : RState) (u : MemberRecord)
    (x : String) :
    countE (Event.addRolesCall x) (restoreTail tt e s u).events
      = countE (Event.addRolesCall x) s.events := by
  simp only [restoreTail]
  split <;> simp_all [countE, List.count_append]

theorem restoreStep_sum (r : Bool) (tt : Nat) (s : RState) (u : MemberRecord)
    (e : CandEnv) :
    (restoreStep r tt s u e).restored_count + (restoreStep r tt s u e).failed_count
      = s.restored_count + s.failed_count + 1 := by
  rcases e with ⟨fm, ar, mk⟩
  cases fm with
  | notFound => rfl
  | raises => rfl
  | found h =>
      simp only [restoreStep]
      split
      · split
        · rfl
        · rw [restoreTail_restored, restoreTail_failed]
          simp
          omega
      · rw [restoreTail_restored, restoreTail_failed]
        simp
        omega

theorem restoreStep_mono (r : Bool) (tt : Nat) (s : RState) (u : MemberRecord)
    (e : CandEnv) :
    s.restored_count ≤ (restoreStep r tt s u e).restored_count
    ∧ s.failed_count ≤ (restoreStep r tt s u e).failed_count := by
  rcases e with ⟨fm, ar, mk⟩
  cases fm with
  | notFound => exact ⟨Nat.le_refl _, Nat.le_succ _⟩
  | raises => exact ⟨Nat.le_refl _, Nat.le_succ _⟩
  | found h =>
      simp only [restoreStep]
      split
      · split
        · exact ⟨Nat.le_refl _, Nat.le_succ _⟩
        · rw [restoreTail_restored, restoreTail_failed]
          simp
      · rw [restoreTail_restored, restoreTail_failed]
        simp

theorem restoreStep_restored_cases (r : Bool) (tt : Nat) (s : RState) (u : MemberRecord)
    (e : CandEnv) :
    (restoreStep r tt s u e).restored_count = s.restored_count
    ∨ (restoreStep r tt s u e).restored_count = s.restored_count + 1 := by
  rcases e with ⟨fm, ar, mk⟩
  cases fm with
  | notFound => exact Or.inl rfl
  | raises => exact Or.inl rfl
  | found h =>
      simp only [restoreStep]
      split
      · split
        · exact Or.inl rfl
        · rw [restoreTail_restored]
          exact Or.inr rfl
      · rw [restoreTail_restored]
        exact Or.inr rfl

theorem restoreStep_fetchCalls (r : Bool) (tt : Nat) (s : RState) (u : MemberRecord)
    (e : CandEnv) :
    fetchCalls (restoreStep r tt s u e).events
      = fetchCalls s.events ++ [u.discord_id] := by
  rcases e with ⟨fm, ar, mk⟩
  cases fm with
  | notFound => simp [restoreStep, fetchCalls, List.filterMap_append]
  | raises => simp [restoreStep, fetchCalls, List.filterMap_append]
  | found h =>
      simp only [restoreStep]
      split
      · split
        · simp [fetchCalls, List.filterMap_append]
        · rw [restoreTail_fetchCalls]
          simp [fetchCalls, List.filterMap_append]
      · rw [restoreTail_fetchCalls]
        simp [fetchCalls, List.filterMap_append]

theorem restoreStep_progress (r : Bool) (tt : Nat) (s : RState) (u : MemberRecord)
    (e : CandEnv) :
    countP isProgress (restoreStep r tt s u e).events
      = countP isProgress s.events
        + (if (restoreStep r tt s u e).restored_count = s.restored_count + 1
             ∧ (restoreStep r tt s u e).restored_count % 10 = 0 then 1 else 0) := by
  rcases e with ⟨fm, ar, mk⟩
  cases fm with
  | notFound => simp [restoreStep, countP, isProgress, List.filter_append]
  | raises => simp [restoreStep, countP, isProgress, List.filter_append]
  | found h =>
      simp only [restoreStep]
      split
      · split
        · simp [countP, isProgress, List.filter_append]
        · rw [restoreTail_progress, restoreTail_restored]
          simp [countP, isProgress, List.filter_append]
      · rw [restoreTail_progress, restoreTail_restored]
        simp [countP, isProgress, List.filter_append]

theorem restoreStep_final (r : Bool) (tt : Nat) (s : RState) (u : MemberRecord)
    (e : CandEnv) :
    countP isFinal (restoreStep r tt s u e).events = countP isFinal s.events := by
  rcases e with ⟨fm, ar, mk⟩
  cases fm with
  | notFound => simp [restoreStep, countP, isFinal, List.filter_append]
  | raises => simp [restoreStep, countP, isFinal, List.filter_append]
  | found h =>
      simp only [restoreStep]
      split
      · split
        · simp [countP, isFinal, List.filter_append]
        · rw [restoreTail_final]
          simp [countP, isFinal, List.filter_append]
      · rw [restoreTail_final]
        simp [countP, isFinal, List.filter_append]

theorem restoreStep_mark (r : Bool) (tt : Nat) (s : RState) (u : MemberRecord)
    (e : CandEnv) :
    countE (Event.markRestoredCall u.discord_id) (restoreStep r tt s u e).events
      = countE (Event.markRestoredCall u.discord_id) s.events
        + ((restoreStep r tt s u e).restored_count - s.restored_count) := by
  rcases e with ⟨fm, ar, mk⟩
  cases fm with
  | notFound => simp [restoreStep, countE, List.count_append]
  | raises => simp [restoreStep, countE, List.count_append]
  | found h =>
      simp only [restoreStep]
      split
      · split
        · simp [countE, List.count_append]
        · rw [restoreTail_mark_self, restoreTail_restored]
          simp [countE, List.count_append]
      · rw [restoreTail_mark_self, restoreTail_restored]
        simp [countE, List.count_append]

theorem restoreLoop_sum (r : Bool) (tt : Nat) (cs : List (MemberRecord × CandEnv)) :
    ∀ s : RState,
    (restoreLoop r tt cs s).restored_count + (restoreLoop r tt cs s).failed_count
      = s.restored_count + s.failed_count + cs.length := by
  induction cs with
  | nil => intro s; rfl
  | cons p rest ih =>
      intro s
      simp only [restoreLoop, List.length_cons]
      rw [ih]
      have h := restoreStep_sum r tt s p.1 p.2
      omega

theorem restoreLoop_mono (r : Bool) (tt : Nat) (cs : List (MemberRecord × CandEnv)) :
    ∀ s : RState,
    s.restored_count ≤ (restoreLoop r tt cs s).restored_count
    ∧ s.failed_count ≤ (restoreLoop r tt cs s).failed_count := by
  induction cs with
  | nil => intro s; exact ⟨Nat.le_refl _, Nat.le_refl _⟩
  | cons p rest ih =>
      intro s
      have h1 := restoreStep_mono r tt s p.1 p.2
      have h2 := ih (restoreStep r tt s p.1 p.2)
      simp only [restoreLoop]
      exact ⟨Nat.le_trans h1.1 h2.1, Nat.le_trans h1.2 h2.2⟩

theorem restoreLoop_fetchCalls (r : Bool) (tt : Nat)
    (cs : List (MemberRecord × CandEnv)) :
    ∀ s : RState,
    fetchCalls (restoreLoop r tt cs s).events
      = fetchCalls s.events ++ cs.map (fun p => p.1.discord_id) := by
  induction cs with
  | nil => intro s; simp [restoreLoop]
  | cons p rest ih =>
      intro s
      simp only [restoreLoop, List.map_cons]
      rw [ih, restoreStep_fetchCalls]
      simp

theorem restoreLoop_progress (r : Bool) (tt : Nat)
    (cs : List (MemberRecord × CandEnv)) :
    ∀ s : RState, countP isProgress s.events = s.restored_count / 10 →
    countP isProgress (restoreLoop r tt cs s).events
      = (restoreLoop r tt cs s).restored_count / 10 := by
  induction cs with
  | nil => intro s h; exact h
  | cons p rest ih =>
      intro s h
      simp only [restoreLoop]
      apply ih
      rw [restoreStep_progress]
      rcases restoreStep_restored_cases r tt s p.1 p.2 with hc | hc
      · rw [hc, h]
        have : ¬ (s.restored_count = s.restored_count + 1) := by omega
        simp [hc, this]
      · rw [hc, h, div_ten_succ]
        simp [hc]

theorem restoreLoop_final (r : Bool) (tt : Nat) (cs : List (MemberRecord × CandEnv)) :
    ∀ s : RState,
    countP isFinal (restoreLoop r tt cs s).events = countP isFinal s.events := by
  induction cs with
  | nil => intro s; rfl
  | cons p rest ih =>
      intro s
      simp only [restoreLoop]
      rw [ih, restoreStep_final]

/-- Counters and trace of a `transfer_users` run after the whole loop,
for a 200-fetch with a nonempty candidate list. -/
def transferRunState (a d : Bool) (limit : Nat)
    (cands : List (MemberRecord × CandEnv)) : TState :=
  transferLoop a d (applyLimit limit cands).length (applyLimit limit cands)
    (initT (applyLimit limit cands).length)

/-- Counters and trace of a `transfer_users` run after the first `k`
iterated candidates. -/
def transferStateAt (a d : Bool) (limit : Nat)
    (cands : List (MemberRecord × CandEnv)) (k : Nat) : TState :=
  transferLoop a d (applyLimit limit cands).length ((applyLimit limit cands).take k)
    (initT (applyLimit limit cands).length)

/-- `users = [u for u in users if not u.get('restored', False)]`
(bot.py:528). -/
def restoreFiltered (cands : List (MemberRecord × CandEnv)) :
    List (MemberRecord × CandEnv) :=
  cands.filter (fun p => !p.1.restored)

/-- Counters and trace of a `restore_members` run after the whole loop,
for a 200-fetch with a nonempty filtered candidate list. -/
def restoreRunState (r : Bool) (limit : Nat)
    (cands : List (MemberRecord × CandEnv)) : RState :=
  restoreLoop r (applyLimit limit (restoreFiltered cands)).length
    (applyLimit limit (restoreFiltered cands))
    (initR (applyLimit limit (restoreFiltered cands)).length)

/-- Counters and trace of a `restore_members` run after the first `k`
iterated candidates. -/
def restoreStateAt (r : Bool) (limit : Nat)
    (cands : List (MemberRecord × CandEnv)) (k : Nat) : RState :=
  restoreLoop r (applyLimit limit (restoreFiltered cands)).length
    ((applyLimit limit (restoreFiltered cands)).take k)
    (initR (applyLimit limit (restoreFiltered cands)).length)

theorem transfer_users_run (limit : Nat) (a d : Bool)
    (cands : List (MemberRecord × CandEnv)) (h : cands ≠ []) :
    transfer_users (TFetch.resp 200 cands) limit a d
      = (JobOutcome.completedTransfer (transferRunState a d limit cands).transferred
           (transferRunState a d limit cands).already_member
           (transferRunState a d limit cands).failed
           (applyLimit limit cands).length,
         (transferRunState a d limit cands).events
           ++ [Event.finalEditTransfer (transferRunState a d limit cands).transferred
                 (transferRunState a d limit cands).already_member
                 (transferRunState a d limit cands).failed
                 (applyLimit limit cands).length]) := by
  have hne : cands.isEmpty = false := by
    cases cands with
    | nil => exact absurd rfl h
    | cons x xs => rfl
  simp [transfer_users, hne, transferRunState]

theorem restore_members_run (limit : Nat) (r : Bool)
    (cands : List (MemberRecord × CandEnv)) (h : cands ≠ [])
    (hf : restoreFiltered cands ≠ []) :
    restore_members (RFetch.resp 200 cands) limit r
      = (JobOutcome.completedRestore (restoreRunState r limit cands).restored_count
           (restoreRunState r limit cands).failed_count
           (applyLimit limit (restoreFiltered cands)).length,
         (restoreRunState r limit cands).events
           ++ [Event.finalEditRestore (restoreRunState r limit cands).restored_count
                 (restoreRunState r limit cands).failed_count
                 (applyLimit limit (restoreFiltered cands)).length]) := by
  have hne : cands.isEmpty = false := by
    cases cands with
    | nil => exact absurd rfl h
    | cons x xs => rfl
  have hfe : (cands.filter (fun p => !p.1.restored)).isEmpty = false := by
    rcases hx : cands.filter (fun p => !p.1.restored) with _ | ⟨y, ys⟩
    · exact absurd hx hf
    · rw [hx]
      rfl
  simp [restore_members, hne, hfe, restoreRunState, restoreFiltered]

/-- One log entry as returned by
`GET /api/dashboard/server/{id}/logs` (`created_at`, `type`, `message`). -/
structure LogEntry where
  created_at : String
  log_type : String
  message : String
deriving DecidableEq

/-- What the `/logs` command renders: either the "no logs" followup or an
embed with its entry list and the two footer numbers. -/
inductive LogsOutput where
  | noLogs (text : String)
  | logsEmbed (entries : List LogEntry) (footerShown : Nat) (footerTotal : Nat)
deriving DecidableEq

/-- `show_logs` (bot.py:799-857): the caller-chosen `limit`
(`Range[int, 1, 50]`, default 10) is only forwarded to the API as a query
parameter; the response body is `apiLogs` for a 200 status and the empty
list otherwise.  An empty list yields the "no logs" followup; otherwise
the embed shows `logs[:10]` with footer
`Showing {len(logs[:10])} of {len(logs)} logs`. -/
def show_logs (limit : Nat) (status : Nat) (apiLogs : List LogEntry) : LogsOutput :=
  let logs := if status = 200 then apiLogs else []
  if logs.isEmpty then LogsOutput.noLogs "No logs found for this server."
  else LogsOutput.logsEmbed (logs.take 10) (logs.take 10).length logs.length

/-- The four counters of `GET /api/dashboard/server/{id}/stats`
(missing JSON keys default to 0 via `stats.get(..., 0)`). -/
structure Stats where
  total_verified : Nat
  restored : Nat
  pending : Nat
  verified_today : Nat
deriving DecidableEq

/-- The fallback stats used on a non-200 response (bot.py:652). -/
def zeroStats : Stats :=
  { total_verified := 0, restored := 0, pending := 0, verified_today := 0 }

/-- The embed fields rendered by `show_stats` (bot.py:660-665): the three
unconditional counters, plus "Verified Today" only when positive. -/
def statsFields (s : Stats) : List (String × String) :=
  [("✅ Total Verified", toString s.total_verified),
   ("🔄 Restored", toString s.restored),
   ("⏳ Pending", toString s.pending)]
  ++ (if s.verified_today > 0 then [("📈 Verified Today", toString s.verified_today)] else [])

/-- `show_stats` (bot.py:639-670): a 200 response renders the returned
stats, any other status renders `zeroStats`; no error is surfaced. -/
def show_stats (status : Nat) (apiStats : Stats) : List (String × String) :=
  statsFields (if status = 200 then apiStats else zeroStats)

/-- C3: for every job whose candidate list is empty after filtering
(including an empty fetch result), the workflow reports exactly one
"nothing to do" message as a successful no-op — the result is the
`nothingToDo` outcome, not `fetchError` — and the trace holds that single
message and no per-candidate call. -/
theorem C3_empty_candidates_noop :
    (∀ (limit : Nat) (a d : Bool),
       transfer_users (TFetch.resp 200 []) limit a d
         = (JobOutcome.nothingToDo,
            [Event.message "❌ No verified users found in the source server."]))
    ∧ (∀ (limit : Nat) (r : Bool),
         restore_members (RFetch.resp 200 []) limit r
           = (JobOutcome.nothingToDo,
              [Event.message "❌ No verified users found for this server."]))
    ∧ (∀ (limit : Nat) (r : Bool) (users : List (MemberRecord × CandEnv)),
         users ≠ [] → restoreFiltered users = [] →
         restore_members (RFetch.resp 200 users) limit r
           = (JobOutcome.nothingToDo,
              [Event.message "✅ All users are already restored!"])) := by
  refine ⟨fun limit a d => rfl, fun limit r => rfl, ?_⟩
  intro limit r users hne hf
  have hne2 : users.isEmpty = false := by
    cases users with
    | nil => exact absurd rfl hne
    | cons x xs => rfl
  have hfe : (users.filter (fun p => !p.1.restored)).isEmpty = true := by
    have : users.filter (fun p => !p.1.restored) = [] := hf
    rw [this]
    rfl
  simp [restore_members, hne2, hfe]

/-- C3 witness: one all-restored candidate — the filtered list is empty,
the run is a "nothing to do" no-op with one message. -/
theorem C3_empty_candidates_noop_witness :
    restore_members (RFetch.resp 200
        [(⟨"1", "u", true⟩, ⟨FetchMemberOutcome.found false, false, true⟩)]) 0 false
      = (JobOutcome.nothingToDo,
         [Event.message "✅ All users are already restored!"]) :=
  C3_empty_candidates_noop.2.2 0 false
    [(⟨"1", "u", true⟩, ⟨FetchMemberOutcome.found false, false, true⟩)]
    (by decide) (by decide)

/-- C4: for every job whose candidate fetch fails (non-200 status or a
raised exception), the workflow aborts before touching any candidate: the
outcome is `fetchError`, the trace is exactly one user-visible message,
and no counters are reported. -/
theorem C4_fetch_failure_aborts :
    (∀ (limit : Nat) (a d : Bool) (status : Nat)
       (cands : List (MemberRecord × CandEnv)), status ≠ 200 →
       transfer_users (TFetch.resp status cands) limit a d
         = (JobOutcome.fetchError,
            [Event.message ("❌ Failed to get users from source server (API error: "
               ++ toString status ++ ")")]))
    ∧ (∀ (limit : Nat) (a d : Bool),
         transfer_users TFetch.exn limit a d
           = (JobOutcome.fetchError,
              [Event.message "❌ Failed to connect to verification API."]))
    ∧ (∀ (limit : Nat) (r : Bool) (status : Nat)
         (users : List (MemberRecord × CandEnv)), status ≠ 200 →
         restore_members (RFetch.resp status users) limit r
           = (JobOutcome.fetchError,
              [Event.message "❌ Failed to get verified users from API."]))
    ∧ (∀ (limit : Nat) (r : Bool),
         restore_members RFetch.exn limit r
           = (JobOutcome.fetchError,
              [Event.message "❌ An error occurred during restoration."])) := by
  refine ⟨?_, fun limit a d => rfl, ?_, fun limit r => rfl⟩
  · intro limit a d status cands hs
    simp [transfer_users, hs]
  · intro limit r status users hs
    simp [restore_members, hs]

/-- C4 witness: a 500 fetch on a nonempty candidate list aborts the
transfer with the single API-error message. -/
theorem C4_fetch_failure_aborts_witness :
    transfer_users (TFetch.resp 500
        [(⟨"1", "u", false⟩, ⟨FetchMemberOutcome.found false, false, true⟩)]) 0 false false
      = (JobOutcome.fetchError,
         [Event.message ("❌ Failed to get users from source server (API error: "
            ++ toString 500 ++ ")")]) :=
  C4_fetch_failure_aborts.1 0 false false 500
    [(⟨"1", "u", false⟩, ⟨FetchMemberOutcome.found false, false, true⟩)] (by decide)

/-- C5: for limit `L` and filtered list of length `n`, `0 < L < n`
processes exactly the first `L` candidates in original order, and `L = 0`
or `L ≥ n` processes all of them; in either case the per-candidate
`fetch_member` calls of a completed run are exactly the ids of
`applyLimit L` of the (filtered) list, in order. -/
theorem C5_limit_truncation :
    (∀ (limit : Nat) (xs : List (MemberRecord × CandEnv)),
       (0 < limit → limit < xs.length → applyLimit limit xs = xs.take limit)
       ∧ (limit = 0 ∨ xs.length ≤ limit → applyLimit limit xs = xs))
    ∧ (∀ (limit : Nat) (a d : Bool) (cands : List (MemberRecord × CandEnv)),
         cands ≠ [] →
         fetchCalls (transfer_users (TFetch.resp 200 cands) limit a d).2
           = (applyLimit limit cands).map (fun p => p.1.discord_id))
    ∧ (∀ (limit : Nat) (r : Bool) (cands : List (MemberRecord × CandEnv)),
         cands ≠ [] → restoreFiltered cands ≠ [] →
         fetchCalls (restore_members (RFetch.resp 200 cands) limit r).2
           = (applyLimit limit (restoreFiltered cands)).map (fun p => p.1.discord_id)) := by
  refine ⟨?_, ?_, ?_⟩
  · intro limit xs
    constructor
    · intro h1 h2
      simp [applyLimit, h1, h2]
    · intro h
      have hc : ¬ (0 < limit ∧ limit < xs.length) := by omega
      simp [applyLimit, hc]
  · intro limit a d cands h
    rw [transfer_users_run limit a d cands h]
    simp only []
    rw [fetchCalls_append]
    rw [show transferRunState a d limit cands
          = transferLoop a d (applyLimit limit cands).length (applyLimit limit cands)
              (initT (applyLimit limit cands).length) from rfl]
    rw [transferLoop_fetchCalls]
    simp [initT, fetchCalls]
  · intro limit r cands h hf
    rw [restore_members_run limit r cands h hf]
    simp only []
    rw [fetchCalls_append]
    rw [show restoreRunState r limit cands
          = restoreLoop r (applyLimit limit (restoreFiltered cands)).length
              (applyLimit limit (restoreFiltered cands))
              (initR (applyLimit limit (restoreFiltered cands)).length) from rfl]
    rw [restoreLoop_fetchCalls]
    simp [initR, fetchCalls]

/-- C5 witness: limit 5 on 7 candidates — exactly the first 5 ids are
fetched, in the original order. -/
theorem C5_limit_truncation_witness :
    fetchCalls (transfer_users (TFetch.resp 200
        [(⟨"1", "a", false⟩, ⟨FetchMemberOutcome.found false, false, true⟩),
         (⟨"2", "b", false⟩, ⟨FetchMemberOutcome.notFound, false, true⟩),
         (⟨"3", "c", false⟩, ⟨FetchMemberOutcome.found true, false, true⟩),
         (⟨"4", "d", false⟩, ⟨FetchMemberOutcome.raises, false, true⟩),
         (⟨"5", "e", false⟩, ⟨FetchMemberOutcome.found false, true, true⟩),
         (⟨"6", "f", false⟩, ⟨FetchMemberOutcome.found false, false, true⟩),
         (⟨"7", "g", false⟩, ⟨FetchMemberOutcome.notFound, false, true⟩)]) 5 true false).2
      = ["1", "2", "3", "4", "5"] := by
  rw [C5_limit_truncation.2.1 5 true false
    [(⟨"1", "a", false⟩, ⟨FetchMemberOutcome.found false, false, true⟩),
     (⟨"2", "b", false⟩, ⟨FetchMemberOutcome.notFound, false, true⟩),
     (⟨"3", "c", false⟩, ⟨FetchMemberOutcome.found true, false, true⟩),
     (⟨"4", "d", false⟩, ⟨FetchMemberOutcome.raises, false, true⟩),
     (⟨"5", "e", false⟩, ⟨FetchMemberOutcome.found false, true, true⟩),
     (⟨"6", "f", false⟩, ⟨FetchMemberOutcome.found false, false, true⟩),
     (⟨"7", "g", false⟩, ⟨FetchMemberOutcome.notFound, false, true⟩)] (by decide)]
  decide

/-- C9: the `/logs` embed renders at most 10 entries — `logs[:10]` — for
any caller limit in the declared 1..50 range and any API payload, and the
footer reports shown (`min 10 n`) versus returned (`n`). -/
theorem C9_logs_embed_capped (limit status : Nat) (logs : List LogEntry)
    (h1 : 1 ≤ limit) (h2 : limit ≤ 50) (hs : status = 200) (hne : logs ≠ []) :
    show_logs limit status logs
      = LogsOutput.logsEmbed (logs.take 10) (min 10 logs.length) logs.length
    ∧ (logs.take 10).length ≤ 10 := by
  subst hs
  have hne2 : logs.isEmpty = false := by
    cases logs with
    | nil => exact absurd rfl hne
    | cons x xs => rfl
  constructor
  · simp [show_logs, hne2, List.length_take]
  · simp [List.length_take]

/-- C9 witness: limit 50 with 12 returned logs still shows only the first
10, footer "10 of 12". -/
theorem C9_logs_embed_capped_witness :
    show_logs 50 200
        [⟨"t1", "verification", "m1"⟩, ⟨"t2", "verification", "m2"⟩,
         ⟨"t3", "error", "m3"⟩, ⟨"t4", "config", "m4"⟩,
         ⟨"t5", "restoration", "m5"⟩, ⟨"t6", "verification", "m6"⟩,
         ⟨"t7", "error", "m7"⟩, ⟨"t8", "config", "m8"⟩,
         ⟨"t9", "verification", "m9"⟩, ⟨"t10", "error", "m10"⟩,
         ⟨"t11", "config", "m11"⟩, ⟨"t12", "verification", "m12"⟩]
      = LogsOutput.logsEmbed
          (([⟨"t1", "verification", "m1"⟩, ⟨"t2", "verification", "m2"⟩,
            ⟨"t3", "error", "m3"⟩, ⟨"t4", "config", "m4"⟩,
            ⟨"t5", "restoration", "m5"⟩, ⟨"t6", "verification", "m6"⟩,
            ⟨"t7", "error", "m7"⟩, ⟨"t8", "config", "m8"⟩,
            ⟨"t9", "verification", "m9"⟩, ⟨"t10", "error", "m10"⟩,
            ⟨"t11", "config", "m11"⟩, ⟨"t12", "verification", "m12"⟩] : List LogEntry).take 10)
          (min 10 12) 12
    ∧ (([⟨"t1", "verification", "m1"⟩, ⟨"t2", "verification", "m2"⟩,
        ⟨"t3", "error", "m3"⟩, ⟨"t4", "config", "m4"⟩,
        ⟨"t5", "restoration", "m5"⟩, ⟨"t6", "verification", "m6"⟩,
        ⟨"t7", "error", "m7"⟩, ⟨"t8", "config", "m8"⟩,
        ⟨"t9", "verification", "m9"⟩, ⟨"t10", "error", "m10"⟩,
        ⟨"t11", "config", "m11"⟩, ⟨"t12", "verification", "m12"⟩] : List LogEntry).take 10).length
        ≤ 10 :=
  C9_logs_embed_capped 50 200 _ (by decide) (by decide) rfl (by decide)

/-- C10: when the stats endpoint answers with a non-200 status, the
command surfaces no error: it renders the embed of `zeroStats`, identical
to what a 200 response with all-zero counters renders (the "Verified
Today" field is omitted in both, since it only appears when positive). -/
theorem C10_stats_non200_zero (status : Nat) (apiStats : Stats)
    (h : status ≠ 200) :
    show_stats status apiStats = statsFields zeroStats
    ∧ show_stats status apiStats = show_stats 200 zeroStats
    ∧ show_stats status apiStats
        = [("✅ Total Verified", "0"), ("🔄 Restored", "0"), ("⏳ Pending", "0")] := by
  have hz : show_stats status apiStats = statsFields zeroStats := by
    simp [show_stats, h]
  refine ⟨hz, ?_, ?_⟩
  · rw [hz]
    rfl
  · rw [hz]
    decide

/-- C10 witness: a 500 status with nonzero upstream stats still renders
the all-zero embed. -/
theorem C10_stats_non200_zero_witness :
    show_stats 500 ⟨7, 8, 9, 10⟩ = statsFields zeroStats
    ∧ show_stats 500 ⟨7, 8, 9, 10⟩ = show_stats 200 zeroStats
    ∧ show_stats 500 ⟨7, 8, 9, 10⟩
        = [("✅ Total Verified", "0"), ("🔄 Restored", "0"), ("⏳ Pending", "0")] :=
  C10_stats_non200_zero 500 ⟨7, 8, 9, 10⟩ (by decide)

/-- C2 counterexample: in `transfer_users` a found member who already
holds the requested role (the env says `found true`) still gets an
`add_roles` call — the claim's "assigns the role only if the member does
not already hold it" fails for the transfer workflow. -/
theorem C2_counterexample :
    countE (Event.addRolesCall "1")
      (transfer_users (TFetch.resp 200
        [(⟨"1", "u", false⟩, ⟨FetchMemberOutcome.found true, false, true⟩)])
        0 true false).2 = 1 := by
  decide

/-- C2 (amended): the restore workflow assigns the requested role only to
found members who do not already hold it, and counts every found member
(whose assignment does not raise) as succeeded either way; the transfer
workflow counts found members as succeeded the same way but calls
`add_roles` unconditionally whenever a role was requested, whether or not
the member already holds it. -/
theorem C2_role_assignment_amended :
    (∀ (roleRequested : Bool) (tt : Nat) (s : RState) (u : MemberRecord)
       (hasRole mk : Bool),
       (restoreStep roleRequested tt s u
           ⟨FetchMemberOutcome.found hasRole, false, mk⟩).restored_count
         = s.restored_count + 1
       ∧ countE (Event.addRolesCall u.discord_id)
           (restoreStep roleRequested tt s u
             ⟨FetchMemberOutcome.found hasRole, false, mk⟩).events
         = countE (Event.addRolesCall u.discord_id) s.events
           + (if roleRequested ∧ hasRole = false then 1 else 0))
    ∧ (∀ (assignRole d : Bool) (tt : Nat) (s : TState) (u : MemberRecord)
         (hasRole mk : Bool),
         (transferStep assignRole d tt s u
             ⟨FetchMemberOutcome.found hasRole, false, mk⟩).transferred
           = s.transferred + 1
         ∧ countE (Event.addRolesCall u.discord_id)
             (transferStep assignRole d tt s u
               ⟨FetchMemberOutcome.found hasRole, false, mk⟩).events
           = countE (Event.addRolesCall u.discord_id) s.events
             + (if assignRole then 1 else 0)) := by
  constructor
  · intro roleRequested tt s u hasRole mk
    simp only [restoreStep]
    split
    · rw [if_neg Bool.false_ne_true]
      constructor
      · rw [restoreTail_restored]
      · rw [restoreTail_addRoles]
        simp_all [countE, List.count_append]
    · constructor
      · rw [restoreTail_restored]
      · rw [restoreTail_addRoles]
        simp_all [countE, List.count_append]
  · intro assignRole d tt s u hasRole mk
    simp only [transferStep]
    split
    · rw [if_neg Bool.false_ne_true]
      constructor
      · rw [transferTail_transferred]
      · rw [transferTail_addRoles]
        simp_all [countE, List.count_append]
    · constructor
      · rw [transferTail_transferred]
      · rw [transferTail_addRoles]
        simp_all [countE, List.count_append]

/-- C6: a candidate whose processing raises — either the member
resolution raising a non-`NotFound` error, or `add_roles` raising — is
caught inside the loop: `failed` grows by exactly one, the success counter
is untouched, and the loop still reaches every remaining candidate (the
per-candidate fetch calls of the whole run cover the candidates after the
raising one). -/
theorem C6_per_candidate_exception_isolated :
    (∀ (a d : Bool) (tt : Nat) (s : TState) (u : MemberRecord) (e : CandEnv)
       (pre post : List (MemberRecord × CandEnv)),
       e.fetchMember = FetchMemberOutcome.raises →
       (transferStep a d tt s u e).failed = s.failed + 1
       ∧ (transferStep a d tt s u e).transferred = s.transferred
       ∧ fetchCalls (transferLoop a d tt (pre ++ (u, e) :: post) s).events
           = fetchCalls s.events
             ++ (pre ++ (u, e) :: post).map (fun p => p.1.discord_id))
    ∧ (∀ (d : Bool) (tt : Nat) (s : TState) (u : MemberRecord) (hasRole mk : Bool),
         (transferStep true d tt s u
             ⟨FetchMemberOutcome.found hasRole, true, mk⟩).failed = s.failed + 1
         ∧ (transferStep true d tt s u
             ⟨FetchMemberOutcome.found hasRole, true, mk⟩).transferred = s.transferred)
    ∧ (∀ (r : Bool) (tt : Nat) (s : RState) (u : MemberRecord) (e : CandEnv)
         (pre post : List (MemberRecord × CandEnv)),
         e.fetchMember = FetchMemberOutcome.raises →
         (restoreStep r tt s u e).failed_count = s.failed_count + 1
         ∧ (restoreStep r tt s u e).restored_count = s.restored_count
         ∧ fetchCalls (restoreLoop r tt (pre ++ (u, e) :: post) s).events
             = fetchCalls s.events
               ++ (pre ++ (u, e) :: post).map (fun p => p.1.discord_id))
    ∧ (∀ (tt : Nat) (s : RState) (u : MemberRecord) (mk : Bool),
         (restoreStep true tt s u
             ⟨FetchMemberOutcome.found false, true, mk⟩).failed_count
           = s.failed_count + 1
         ∧ (restoreStep true tt s u
             ⟨FetchMemberOutcome.found false, true, mk⟩).restored_count
           = s.restored_count) := by
  refine ⟨?_, ?_, ?_, ?_⟩
  · intro a d tt s u e pre post he
    refine ⟨?_, ?_, transferLoop_fetchCalls a d tt (pre ++ (u, e) :: post) s⟩
    · rcases e with ⟨fm, ar, mk⟩
      cases he
      rfl
    · rcases e with ⟨fm, ar, mk⟩
      cases he
      rfl
  · intro d tt s u hasRole mk
    constructor
    · simp [transferStep]
    · simp [transferStep]
  · intro r tt s u e pre post he
    refine ⟨?_, ?_, restoreLoop_fetchCalls r tt (pre ++ (u, e) :: post) s⟩
    · rcases e with ⟨fm, ar, mk⟩
      cases he
      rfl
    · rcases e with ⟨fm, ar, mk⟩
      cases he
      rfl
  · intro tt s u mk
    constructor
    · simp [restoreStep]
    · simp [restoreStep]

/-- C6 witness: a raising candidate in a transfer increments `failed` by
one, leaves `transferred` alone, and the (singleton) loop still records
its fetch attempt. -/
theorem C6_per_candidate_exception_isolated_witness :
    (transferStep false false 1 (initT 1) ⟨"2", "v", false⟩
        ⟨FetchMemberOutcome.raises, false, true⟩).failed = (initT 1).failed + 1
    ∧ (transferStep false false 1 (initT 1) ⟨"2", "v", false⟩
        ⟨FetchMemberOutcome.raises, false, true⟩).transferred = (initT 1).transferred
    ∧ fetchCalls (transferLoop false false 1
        [(⟨"2", "v", false⟩, ⟨FetchMemberOutcome.raises, false, true⟩)]
        (initT 1)).events
      = fetchCalls (initT 1).events
        ++ [(((⟨"2", "v", false⟩ : MemberRecord),
              (⟨FetchMemberOutcome.raises, false, true⟩ : CandEnv)))].map
             (fun p => p.1.discord_id) :=
  C6_per_candidate_exception_isolated.1 false false 1 (initT 1) ⟨"2", "v", false⟩
    ⟨FetchMemberOutcome.raises, false, true⟩ [] [] rfl

/-- C7: a progress snapshot is emitted in exactly the loop iterations
whose success brings the success counter to a multiple of 10 (so a run
holds `succeeded / 10` snapshots — one per full block of 10 successes),
and every completed run ends with exactly one final summary edit, emitted
unconditionally after the loop, also when every candidate failed. -/
theorem C7_progress_and_final_summary :
    (∀ (a d : Bool) (tt : Nat) (s : TState) (u : MemberRecord) (e : CandEnv),
       countP isProgress (transferStep a d tt s u e).events
         = countP isProgress s.events
           + (if (transferStep a d tt s u e).transferred = s.transferred + 1
                ∧ (transferStep a d tt s u e).transferred % 10 = 0 then 1 else 0))
    ∧ (∀ (limit : Nat) (a d : Bool) (cands : List (MemberRecord × CandEnv)),
         cands ≠ [] →
         countP isProgress (transfer_users (TFetch.resp 200 cands) limit a d).2
           = (transferRunState a d limit cands).transferred / 10
         ∧ countP isFinal (transfer_users (TFetch.resp 200 cands) limit a d).2 = 1
         ∧ (transfer_users (TFetch.resp 200 cands) limit a d).2.getLast?
             = some (Event.finalEditTransfer
                 (transferRunState a d limit cands).transferred
                 (transferRunState a d limit cands).already_member
                 (transferRunState a d limit cands).failed
                 (applyLimit limit cands).length))
    ∧ (∀ (r : Bool) (tt : Nat) (s : RState) (u : MemberRecord) (e : CandEnv),
         countP isProgress (restoreStep r tt s u e).events
           = countP isProgress s.events
             + (if (restoreStep r tt s u e).restored_count = s.restored_count + 1
                  ∧ (restoreStep r tt s u e).restored_count % 10 = 0 then 1 else 0))
    ∧ (∀ (limit : Nat) (r : Bool) (cands : List (MemberRecord × CandEnv)),
         cands ≠ [] → restoreFiltered cands ≠ [] →
         countP isProgress (restore_members (RFetch.resp 200 cands) limit r).2
           = (restoreRunState r limit cands).restored_count / 10
         ∧ countP isFinal (restore_members (RFetch.resp 200 cands) limit r).2 = 1
         ∧ (restore_members (RFetch.resp 200 cands) limit r).2.getLast?
             = some (Event.finalEditRestore
                 (restoreRunState r limit cands).restored_count
                 (restoreRunState r limit cands).failed_count
                 (applyLimit limit (restoreFiltered cands)).length)) := by
  refine ⟨transferStep_progress, ?_, restoreStep_progress, ?_⟩
  · intro limit a d cands h
    rw [transfer_users_run limit a d cands h]
    refine ⟨?_, ?_, ?_⟩
    · simp only []
      rw [countP_append]
      have h2 : ∀ (t am f n : Nat),
          countP isProgress [Event.finalEditTransfer t am f n] = 0 := fun t am f n => rfl
      rw [h2, Nat.add_zero]
      exact transferLoop_progress a d (applyLimit limit cands).length
        (applyLimit limit cands) (initT (applyLimit limit cands).length)
        (by simp [initT, countP, isProgress])
    · simp only []
      rw [countP_append]
      rw [show transferRunState a d limit cands
            = transferLoop a d (applyLimit limit cands).length (applyLimit limit cands)
                (initT (applyLimit limit cands).length) from rfl]
      rw [transferLoop_final]
      rfl
    · simp only []
      rw [List.getLast?_append_cons]
      rfl
  · intro limit r cands h hf
    rw [restore_members_run limit r cands h hf]
    refine ⟨?_, ?_, ?_⟩
    · simp only []
      rw [countP_append]
      have h2 : ∀ (t f n : Nat),
          countP isProgress [Event.finalEditRestore t f n] = 0 := fun t f n => rfl
      rw [h2, Nat.add_zero]
      exact restoreLoop_progress r (applyLimit limit (restoreFiltered cands)).length
        (applyLimit limit (restoreFiltered cands))
        (initR (applyLimit limit (restoreFiltered cands)).length)
        (by simp [initR, countP, isProgress])
    · simp only []
      rw [countP_append]
      rw [show restoreRunState r limit cands
            = restoreLoop r (applyLimit limit (restoreFiltered cands)).length
                (applyLimit limit (restoreFiltered cands))
                (initR (applyLimit limit (restoreFiltered cands)).length) from rfl]
      rw [restoreLoop_final]
      rfl
    · simp only []
      rw [List.getLast?_append_cons]
      rfl

/-- C7 witness: a transfer whose only candidate fails (`NotFound`) emits
no progress snapshot but still exactly one final summary, as the last
event. -/
theorem C7_progress_and_final_summary_witness :
    countP isProgress (transfer_users (TFetch.resp 200
        [(⟨"1", "u", false⟩, ⟨FetchMemberOutcome.notFound, false, true⟩)]) 0 false false).2
      = (transferRunState false false 0
          [(⟨"1", "u", false⟩, ⟨FetchMemberOutcome.notFound, false, true⟩)]).transferred / 10
    ∧ countP isFinal (transfer_users (TFetch.resp 200
        [(⟨"1", "u", false⟩, ⟨FetchMemberOutcome.notFound, false, true⟩)]) 0 false false).2 = 1
    ∧ (transfer_users (TFetch.resp 200
        [(⟨"1", "u", false⟩, ⟨FetchMemberOutcome.notFound, false, true⟩)]) 0 false false).2.getLast?
        = some (Event.finalEditTransfer
            (transferRunState false false 0
              [(⟨"1", "u", false⟩, ⟨FetchMemberOutcome.notFound, false, true⟩)]).transferred
            (transferRunState false false 0
              [(⟨"1", "u", false⟩, ⟨FetchMemberOutcome.notFound, false, true⟩)]).already_member
            (transferRunState false false 0
              [(⟨"1", "u", false⟩, ⟨FetchMemberOutcome.notFound, false, true⟩)]).failed
            (applyLimit 0
              ([(⟨"1", "u", false⟩, ⟨FetchMemberOutcome.notFound, false, true⟩)]
                : List (MemberRecord × CandEnv))).length) :=
  C7_progress_and_final_summary.2.1 0 false false
    [(⟨"1", "u", false⟩, ⟨FetchMemberOutcome.notFound, false, true⟩)] (by decide)

theorem restoreStep_markOk_indep (r : Bool) (tt : Nat) (s : RState) (u : MemberRecord)
    (fm : FetchMemberOutcome) (ar : Bool) :
    (restoreStep r tt s u ⟨fm, ar, false⟩).restored_count
      = (restoreStep r tt s u ⟨fm, ar, true⟩).restored_count
    ∧ (restoreStep r tt s u ⟨fm, ar, false⟩).failed_count
      = (restoreStep r tt s u ⟨fm, ar, true⟩).failed_count
    ∧ (restoreStep r tt s u ⟨fm, ar, false⟩).events
      = (restoreStep r tt s u ⟨fm, ar, true⟩).events := by
  cases fm with
  | notFound => exact ⟨rfl, rfl, rfl⟩
  | raises => exact ⟨rfl, rfl, rfl⟩
  | found h =>
      simp only [restoreStep, restoreTail]
      split_ifs <;> simp_all

/-- C8 counterexample: a transfer run with one successfully processed
candidate (`succeeded = 1`) performs zero mark-as-transferred API calls —
the claim's "both the transfer and the restore workflow" fails for
transfer, which has no such call at all. -/
theorem C8_counterexample :
    (transfer_users (TFetch.resp 200
        [(⟨"1", "u", false⟩, ⟨FetchMemberOutcome.found false, false, true⟩)])
        0 false false).1
      = JobOutcome.completedTransfer 1 1 0 1
    ∧ countE (Event.markRestoredCall "1")
        (transfer_users (TFetch.resp 200
          [(⟨"1", "u", false⟩, ⟨FetchMemberOutcome.found false, false, true⟩)])
          0 false false).2
      = 0 := by
  decide

/-- C8 (amended): only the restore workflow marks candidates via the API:
each restore iteration makes exactly one mark-restored call per success
(`restored_count` increment) and none for a failed candidate; a failing
mark call changes neither counters nor user-visible events (only the
error log); the transfer loop never emits a mark call. -/
theorem C8_mark_restored_amended :
    (∀ (r : Bool) (tt : Nat) (s : RState) (u : MemberRecord) (e : CandEnv),
       countE (Event.markRestoredCall u.discord_id) (restoreStep r tt s u e).events
         = countE (Event.markRestoredCall u.discord_id) s.events
           + ((restoreStep r tt s u e).restored_count - s.restored_count))
    ∧ (∀ (r : Bool) (tt : Nat) (s : RState) (u : MemberRecord)
         (fm : FetchMemberOutcome) (ar : Bool),
         (restoreStep r tt s u ⟨fm, ar, false⟩).restored_count
           = (restoreStep r tt s u ⟨fm, ar, true⟩).restored_count
         ∧ (restoreStep r tt s u ⟨fm, ar, false⟩).failed_count
           = (restoreStep r tt s u ⟨fm, ar, true⟩).failed_count
         ∧ (restoreStep r tt s u ⟨fm, ar, false⟩).events
           = (restoreStep r tt s u ⟨fm, ar, true⟩).events)
    ∧ (∀ (a d : Bool) (tt : Nat) (cs : List (MemberRecord × CandEnv)) (s : TState)
         (x : String),
         countE (Event.markRestoredCall x) (transferLoop a d tt cs s).events
           = countE (Event.markRestoredCall x) s.events) :=
  ⟨restoreStep_mark, restoreStep_markOk_indep,
   fun a d tt cs s x => transferLoop_mark a d tt cs x s⟩

/-- C1 counterexample: a transfer with one candidate found in the target
completes as `completedTransfer 1 1 0 1` — a found candidate increments
both `already_member` and `transferred`, so succeeded + alreadyPresent +
failed = 2 while processed = total = 1. -/
theorem C1_counterexample :
    (transfer_users (TFetch.resp 200
        [(⟨"1", "u", false⟩, ⟨FetchMemberOutcome.found false, false, true⟩)])
        0 false false).1
      = JobOutcome.completedTransfer 1 1 0 1
    ∧ 1 + 1 + 0 ≠ 1 := by
  decide

/-- C1 (amended): for every migration job that reaches its final summary,
`succeeded + failed = processed = total` (the candidate-list length after
filtering and limit truncation); in the transfer workflow `already_member`
separately counts found candidates (each found candidate increments both
`already_member` and `transferred`, so succeeded + alreadyPresent + failed
can exceed processed) and stays at most `total`, while the restore
workflow has no alreadyPresent counter at all; during iteration every
counter only increments and `succeeded + failed = processed ≤ total` holds
after every prefix of the loop. -/
theorem C1_migration_counters_amended :
    (∀ (limit : Nat) (a d : Bool) (cands : List (MemberRecord × CandEnv)),
       cands ≠ [] →
       (transfer_users (TFetch.resp 200 cands) limit a d).1
         = JobOutcome.completedTransfer (transferRunState a d limit cands).transferred
             (transferRunState a d limit cands).already_member
             (transferRunState a d limit cands).failed
             (applyLimit limit cands).length
       ∧ (transferRunState a d limit cands).transferred
           + (transferRunState a d limit cands).failed
           = (applyLimit limit cands).length
       ∧ (transferRunState a d limit cands).already_member
           ≤ (applyLimit limit cands).length
       ∧ (∀ k : Nat,
            (transferStateAt a d limit cands k).transferred
              + (transferStateAt a d limit cands k).failed
              = min k (applyLimit limit cands).length
            ∧ (transferStateAt a d limit cands k).transferred
                + (transferStateAt a d limit cands k).failed
                ≤ (applyLimit limit cands).length))
    ∧ (∀ (a d : Bool) (tt : Nat) (s : TState) (u : MemberRecord) (e : CandEnv),
         s.transferred ≤ (transferStep a d tt s u e).transferred
         ∧ s.already_member ≤ (transferStep a d tt s u e).already_member
         ∧ s.failed ≤ (transferStep a d tt s u e).failed)
    ∧ (∀ (limit : Nat) (r : Bool) (cands : List (MemberRecord × CandEnv)),
         cands ≠ [] → restoreFiltered cands ≠ [] →
         (restore_members (RFetch.resp 200 cands) limit r).1
           = JobOutcome.completedRestore (restoreRunState r limit cands).restored_count
               (restoreRunState r limit cands).failed_count
               (applyLimit limit (restoreFiltered cands)).length
         ∧ (restoreRunState r limit cands).restored_count
             + (restoreRunState r limit cands).failed_count
             = (applyLimit limit (restoreFiltered cands)).length
         ∧ (∀ k : Nat,
              (restoreStateAt r limit cands k).restored_count
                + (restoreStateAt r limit cands k).failed_count
                = min k (applyLimit limit (restoreFiltered cands)).length
              ∧ (restoreStateAt r limit cands k).restored_count
                  + (restoreStateAt r limit cands k).failed_count
                  ≤ (applyLimit limit (restoreFiltered cands)).length))
    ∧ (∀ (r : Bool) (tt : Nat) (s : RState) (u : MemberRecord) (e : CandEnv),
         s.restored_count ≤ (restoreStep r tt s u e).restored_count
         ∧ s.failed_count ≤ (restoreStep r tt s u e).failed_count) := by
  refine ⟨?_, transferStep_mono, ?_, restoreStep_mono⟩
  · intro limit a d cands h
    refine ⟨?_, ?_, ?_, ?_⟩
    · rw [transfer_users_run limit a d cands h]
    · have hs := transferLoop_sum a d (applyLimit limit cands).length
        (applyLimit limit cands) (initT (applyLimit limit cands).length)
      simpa [transferRunState, initT] using hs
    · have ha := transferLoop_already_le a d (applyLimit limit cands).length
        (applyLimit limit cands) (initT (applyLimit limit cands).length)
      simpa [transferRunState, initT] using ha
    · intro k
      have hs := transferLoop_sum a d (applyLimit limit cands).length
        ((applyLimit limit cands).take k) (initT (applyLimit limit cands).length)
      have h1 : (transferStateAt a d limit cands k).transferred
          + (transferStateAt a d limit cands k).failed
          = min k (applyLimit limit cands).length := by
        simpa [transferStateAt, initT, List.length_take] using hs
      exact ⟨h1, by rw [h1]; exact Nat.min_le_right k _⟩
  · intro limit r cands h hf
    refine ⟨?_, ?_, ?_⟩
    · rw [restore_members_run limit r cands h hf]
    · have hs := restoreLoop_sum r (applyLimit limit (restoreFiltered cands)).length
        (applyLimit limit (restoreFiltered cands))
        (initR (applyLimit limit (restoreFiltered cands)).length)
      simpa [restoreRunState, initR] using hs
    · intro k
      have hs := restoreLoop_sum r (applyLimit limit (restoreFiltered cands)).length
        ((applyLimit limit (restoreFiltered cands)).take k)
        (initR (applyLimit limit (restoreFiltered cands)).length)
      have h1 : (restoreStateAt r limit cands k).restored_count
          + (restoreStateAt r limit cands k).failed_count
          = min k (applyLimit limit (restoreFiltered cands)).length := by
        simpa [restoreStateAt, initR, List.length_take] using hs
      exact ⟨h1, by rw [h1]; exact Nat.min_le_right k _⟩

/-- C1 witness: after the first candidate of a concrete two-candidate
transfer, succeeded + failed equals the number processed and stays within
the total. -/
theorem C1_migration_counters_amended_witness :
    (transferStateAt false false 0
        [(⟨"1", "u", false⟩, ⟨FetchMemberOutcome.found false, false, true⟩),
         (⟨"2", "v", false⟩, ⟨FetchMemberOutcome.notFound, false, true⟩)] 1).transferred
      + (transferStateAt false false 0
          [(⟨"1", "u", false⟩, ⟨FetchMemberOutcome.found false, false, true⟩),
           (⟨"2", "v", false⟩, ⟨FetchMemberOutcome.notFound, false, true⟩)] 1).failed
      = min 1 (applyLimit 0
          ([(⟨"1", "u", false⟩, ⟨FetchMemberOutcome.found false, false, true⟩),
            (⟨"2", "v", false⟩, ⟨FetchMemberOutcome.notFound, false, true⟩)]
            : List (MemberRecord × CandEnv))).length
    ∧ (transferStateAt false false 0
        [(⟨"1", "u", false⟩, ⟨FetchMemberOutcome.found false, false, true⟩),
         (⟨"2", "v", false⟩, ⟨FetchMemberOutcome.notFound, false, true⟩)] 1).transferred
      + (transferStateAt false false 0
          [(⟨"1", "u", false⟩, ⟨FetchMemberOutcome.found false, false, true⟩),
           (⟨"2", "v", false⟩, ⟨FetchMemberOutcome.notFound, false, true⟩)] 1).failed
      ≤ (applyLimit 0
          ([(⟨"1", "u", false⟩, ⟨FetchMemberOutcome.found false, false, true⟩),
            (⟨"2", "v", false⟩, ⟨FetchMemberOutcome.notFound, false, true⟩)]
            : List (MemberRecord × CandEnv))).length :=
  (C1_migration_counters_amended.1 0 false false
    [(⟨"1", "u", false⟩, ⟨FetchMemberOutcome.found false, false, true⟩),
     (⟨"2", "v", false⟩, ⟨FetchMemberOutcome.notFound, false, true⟩)]
    (by decide)).2.2.2 1
